import Mathlib

/-!
# Formal model of the runner-tracker client (src/js/app.js)

Shallow embedding of the GPS signal-processing and run-state pipeline of the
runner-tracker app.  Distances, paces and accuracies are modelled as exact
rationals (ℚ); wall-clock instants as integer milliseconds (ℤ); the geodesy
module (haversine great-circle distance) is modelled over the reals since it is
built from transcendental functions.  The GPS tick handler is parameterised by
the distance function `dist` it consults (the program instantiates it with
`haversineDistance` from the geodesy module); all control-flow and accounting
is transcribed literally from the source.
-/

/-! ## Constants (src/js/app.js lines 6-16) -/

/-- Earth radius used by the haversine formula, in kilometres. -/
noncomputable def EARTH_RADIUS_KM : ℝ := 6371

/-- GPS accuracy gate threshold, metres (`MAX_GPS_ACCURACY_METERS = 30`). -/
def MAX_GPS_ACCURACY_METERS : ℚ := 30

/-- Jitter gate threshold, metres (`MIN_DISTANCE_THRESHOLD_METERS = 3`). -/
def MIN_DISTANCE_THRESHOLD_METERS : ℚ := 3

/-- Bound on the pace smoothing window (`PACE_SMOOTHING_WINDOW = 5`). -/
def PACE_SMOOTHING_WINDOW : ℕ := 5

/-- Milestone interval in metres (`VOICE_ANNOUNCEMENT_INTERVAL_METERS = 500`).
Note the announcement check in `startGPSTracking` uses the literal `0.5` km
rather than this constant; the model transcribes the literal. -/
def VOICE_ANNOUNCEMENT_INTERVAL_METERS : ℚ := 500

/-! ## Geodesy module (`haversineDistance`, lines 76-90) -/

/-- Degrees to radians, the inline `toRad` helper of `haversineDistance`. -/
noncomputable def toRad (deg : ℝ) : ℝ := deg * Real.pi / 180

/-- Great-circle distance in metres between two coordinate pairs via the
haversine formula, transcribed from `haversineDistance` (lines 76-90). -/
noncomputable def haversineDistance (lat1 lon1 lat2 lon2 : ℝ) : ℝ :=
  let dLat := toRad (lat2 - lat1)
  let dLon := toRad (lon2 - lon1)
  let a :=
    Real.sin (dLat / 2) * Real.sin (dLat / 2) +
      Real.cos (toRad lat1) * Real.cos (toRad lat2) *
        Real.sin (dLon / 2) * Real.sin (dLon / 2)
  let c := 2 * Real.arcsin (Real.sqrt a)
  EARTH_RADIUS_KM * c * 1000

/-! ## History store (`saveRun` / `deleteRun`, lines 40-62)

The persistence collaborator serialises the list of saved runs as a JSON blob
under one key; the adapter functions operate on the parsed list, which is what
is modelled here (the JSON round-trip and the try/catch degradation are the
storage mechanism, out of the claims' scope). -/

/-- A saved-run record as assembled by `handleSaveRun` / `handleFinish`. -/
structure SavedRun where
  id : String
  date : String
  time : ℚ
  distance : String
  avgPace : ℚ
  notes : String
  goalPace : ℚ
  targetDistance : ℚ
deriving DecidableEq

/-- `saveRun` (lines 40-48): `history.unshift(runData)` prepends the new run
to the stored sequence. -/
def saveRun (history : List SavedRun) (runData : SavedRun) : List SavedRun :=
  runData :: history

/-- `deleteRun` (lines 54-62): keeps exactly the entries whose id differs from
`runId` (`history.filter(run => run.id !== runId)`). -/
def deleteRun (history : List SavedRun) (runId : String) : List SavedRun :=
  history.filter (fun run => run.id != runId)

/-! ## Timer (`startTimer` / `pauseTimer`, lines 725-743)

`startTimer` records a wall-clock reference `now - pausedTime*1000`; each tick
recomputes `elapsed = Math.floor((now - startTimeRef)/1000)`; `pauseTimer`
freezes the current elapsed value into `pausedTimeRef`. -/

/-- `startTimer` (line 726): the wall-clock reference instant, in ms. -/
def startTimer (now pausedTime : ℤ) : ℤ := now - pausedTime * 1000

/-- The timer tick body (line 729): elapsed whole seconds since the reference,
`Math.floor((now - startTimeRef)/1000)` (floor division). -/
def timerTickElapsed (now startTimeRef : ℤ) : ℤ := Int.fdiv (now - startTimeRef) 1000

/-! ## Pace estimator (`getCurrentPace`, lines 884-901) -/

/-- The push-then-shift update of `paceWindowRef` inside `getCurrentPace`:
append at the tail, evict the head once the length exceeds
`PACE_SMOOTHING_WINDOW`. -/
def paceWindowPush (w : List ℚ) (x : ℚ) : List ℚ :=
  let pushed := w ++ [x]
  if pushed.length > PACE_SMOOTHING_WINDOW then pushed.tail else pushed

/-- `getCurrentPace` (lines 884-901) as a pure function of the state it reads
and mutates: returns the smoothed pace reading (`none` = the JS `null`) and
the pace window after the call. -/
def getCurrentPace (totalDistance elapsedTime : ℚ) (paceWindow : List ℚ) :
    Option ℚ × List ℚ :=
  let distanceKm := totalDistance / 1000
  if distanceKm < 1 / 100 ∨ elapsedTime < 1 then (none, paceWindow)
  else
    let paceSecondsPerKm := elapsedTime / distanceKm
    let w := paceWindowPush paceWindow paceSecondsPerKm
    (some (w.sum / (w.length : ℚ)), w)

/-! ## Run session state machine (the `App` component, lines 558-934) -/

/-- One GPS location sample as assembled in the `watchPosition` callback
(lines 650-655). -/
structure GpsFix where
  lat : ℚ
  lon : ℚ
  timestamp : ℤ
  accuracy : ℚ
deriving DecidableEq

/-- The run lifecycle states (line 559). -/
inductive RunState
  | idle
  | setup
  | running
  | paused
  | finished
deriving DecidableEq

/-- The numeric content of one spoken milestone announcement, as composed by
`makeVoiceAnnouncement` (lines 824-849): the raw distance fed into the
message, the smoothed pace, and which of the four motivational tiers the
`paceDiff` thresholds (-10, 0, 10) select.  The English text rendered from
these numbers is display formatting and is abstracted to its content. -/
structure Announcement where
  distanceMeters : ℚ
  pace : ℚ
  tier : ℕ
deriving DecidableEq

/-- The mutable per-run state of the `App` component that the claims concern:
the GPS point list, accumulated distance, elapsed seconds, the run config, the
pace window, the milestone marker, and the trace of spoken announcements. -/
structure SessionState where
  runState : RunState
  goalPaceSeconds : ℚ
  targetDistance : ℚ
  gpsPoints : List GpsFix
  totalDistance : ℚ
  elapsedTime : ℤ
  paceWindow : List ℚ
  lastAnnouncementDistance : ℚ
  spoken : List Announcement
deriving DecidableEq

/-- `makeVoiceAnnouncement` (lines 824-849): consults `getCurrentPace` (which
reads the state's `totalDistance`/`elapsedTime` and updates the pace window);
if the pace reading is `null` nothing is spoken; otherwise an announcement
with the motivational tier chosen from `paceDiff = currentPace - goalPace` is
emitted.  Returns the optional announcement and the pace window after the
embedded `getCurrentPace` call. -/
def makeVoiceAnnouncement (goalPaceSeconds totalDistance elapsedTime : ℚ)
    (paceWindow : List ℚ) (distanceMeters : ℚ) : Option Announcement × List ℚ :=
  match getCurrentPace totalDistance elapsedTime paceWindow with
  | (none, w) => (none, w)
  | (some currentPace, w) =>
    let paceDiff := currentPace - goalPaceSeconds
    let tier : ℕ :=
      if paceDiff < -10 then 0
      else if paceDiff < 0 then 1
      else if paceDiff < 10 then 2
      else 3
    (some ⟨distanceMeters, currentPace, tier⟩, w)

/-- The milestone trigger condition inline in the `watchPosition` callback
(line 682): `Math.floor(kmTraveled / 0.5) > Math.floor(lastAnnouncementKm / 0.5)`
where both distances are first converted to kilometres. -/
def checkMilestone (newDistance lastAnnouncementDistance : ℚ) : Bool :=
  let kmTraveled := newDistance / 1000
  let lastAnnouncementKm := lastAnnouncementDistance / 1000
  decide (⌊kmTraveled / (1 / 2)⌋ > ⌊lastAnnouncementKm / (1 / 2)⌋)

/-- The `watchPosition` success callback of `startGPSTracking` (lines 641-697),
parameterised by the distance function `dist` it consults (the program passes
`haversineDistance` of the geodesy module).  Transcribed literally:
fixes failing the accuracy gate return early; every fix passing the gate is
appended to `gpsPoints` (`updated = [...prevPoints, newPoint]` is returned on
every path); when a previous point exists, the increment from it is credited
only if it reaches `MIN_DISTANCE_THRESHOLD_METERS`, in which case the
milestone check runs against the new total and, on a crossing,
`makeVoiceAnnouncement` fires (reading the pre-increment `totalDistance` via
its closure) and `lastAnnouncementDistanceRef` advances to the new total. -/
def processPosition (dist : GpsFix → GpsFix → ℚ) (s : SessionState)
    (p : GpsFix) : SessionState :=
  if p.accuracy > MAX_GPS_ACCURACY_METERS then s
  else
    match s.gpsPoints.getLast? with
    | none => { s with gpsPoints := s.gpsPoints ++ [p] }
    | some lastPoint =>
      let distanceIncrement := dist lastPoint p
      if distanceIncrement ≥ MIN_DISTANCE_THRESHOLD_METERS then
        let newDistance := s.totalDistance + distanceIncrement
        if checkMilestone newDistance s.lastAnnouncementDistance then
          let ann := makeVoiceAnnouncement s.goalPaceSeconds s.totalDistance
            (s.elapsedTime : ℚ) s.paceWindow newDistance
          { s with
            gpsPoints := s.gpsPoints ++ [p]
            totalDistance := newDistance
            paceWindow := ann.2
            lastAnnouncementDistance := newDistance
            spoken := s.spoken ++ ann.1.toList }
        else
          { s with
            gpsPoints := s.gpsPoints ++ [p]
            totalDistance := newDistance }
      else
        { s with gpsPoints := s.gpsPoints ++ [p] }

/-! ## Run control handlers (lines 762-819) -/

/-- `handleStartFromSetup` (lines 770-777): captures the config, enters
`running`, resets the milestone marker.  GPS/timer subscriptions are the
external collaborators; no per-run accumulator is touched here (they are reset
by `handleNewRun`). -/
def handleStartFromSetup (s : SessionState) (goalPace distance : ℚ) : SessionState :=
  { s with
    runState := .running
    goalPaceSeconds := goalPace
    targetDistance := distance
    lastAnnouncementDistance := 0 }

/-- `handlePause` (lines 779-783): enters `paused`, stops GPS and timer;
no session field other than the state label changes. -/
def handlePause (s : SessionState) : SessionState :=
  { s with runState := .paused }

/-- `handleResume` (lines 785-789): re-enters `running` and restarts GPS and
timer; it does not clear `gpsPoints`, `totalDistance`, or any other field. -/
def handleResume (s : SessionState) : SessionState :=
  { s with runState := .running }

/-- `handleNewRun` (lines 810-819): the `Finished → Idle` full reset of the
per-run accumulators (the spoken trace records utterances that already
happened and is a modelling artefact, not a state field of the program). -/
def handleNewRun (s : SessionState) : SessionState :=
  { s with
    runState := .idle
    gpsPoints := []
    totalDistance := 0
    elapsedTime := 0
    paceWindow := []
    lastAnnouncementDistance := 0 }

/-! ## Setup form input handling (`RunSetup`, lines 201-257)

The three inputs clamp at entry.  A text field value is modelled as
`Option ℤ` / `Option ℚ`: `none` stands for a non-numeric entry, on which
`parseInt`/`parseFloat` yield `NaN`.  JavaScript's `x || d` falls back to the
default both on `NaN` and on `0` (both falsy), which `jsOrDefault` mirrors. -/

/-- JavaScript `parse…(value) || d` over integers: `NaN` and `0` are falsy. -/
def jsOrDefaultInt (v : Option ℤ) (d : ℤ) : ℤ :=
  match v with
  | none => d
  | some x => if x = 0 then d else x

/-- JavaScript `parse…(value) || d` over floats: `NaN` and `0` are falsy. -/
def jsOrDefaultRat (v : Option ℚ) (d : ℚ) : ℚ :=
  match v with
  | none => d
  | some x => if x = 0 then d else x

/-- The goal-minutes field (line 224): `Math.max(0, parseInt(v) || 0)`. -/
def setGoalMinutes (v : Option ℤ) : ℤ := max 0 (jsOrDefaultInt v 0)

/-- The goal-seconds field (line 236):
`Math.max(0, Math.min(59, parseInt(v) || 0))`. -/
def setGoalSeconds (v : Option ℤ) : ℤ := max 0 (min 59 (jsOrDefaultInt v 0))

/-- The target-distance field (line 252):
`Math.max(0.1, parseFloat(v) || 0.1)`. -/
def setTargetDistance (v : Option ℚ) : ℚ := max (1 / 10) (jsOrDefaultRat v (1 / 10))

/-- The goal pace captured on submit (`handleStart`, lines 206-209):
`goalMinutes * 60 + goalSeconds`. -/
def handleStartGoalPace (goalMinutes goalSeconds : ℤ) : ℤ :=
  goalMinutes * 60 + goalSeconds

/-! ## Concrete fixtures used by witnesses and counterexamples -/

/-- An accurate fix at the origin (accuracy 5 m, well inside the gate). -/
def fixA : GpsFix := ⟨0, 0, 0, 5⟩

/-- A later accurate fix at the same coordinates as `fixA` (the haversine
distance between identical coordinates is 0, below the 3 m jitter gate). -/
def fixB : GpsFix := ⟨0, 0, 1000, 5⟩

/-- A fix whose reported accuracy (31 m) fails the 30 m accuracy gate. -/
def badFix : GpsFix := ⟨0, 0, 1000, 31⟩

/-- A running session that has accepted `fixA` and accrued nothing yet. -/
def sessionWithA : SessionState := ⟨.running, 300, 5, [fixA], 0, 0, [], 0, []⟩

/-- A running session at 490 m with zero elapsed seconds (so the pace
estimator reads `none`) just below the first 500 m milestone. -/
def session490 : SessionState := ⟨.running, 300, 5, [fixA], 490, 0, [], 0, []⟩

/-- A running session at 490 m with 100 elapsed seconds (pace available). -/
def session490e100 : SessionState := ⟨.running, 300, 5, [fixA], 490, 100, [], 0, []⟩

/-- A fresh idle session, as produced by `handleNewRun`: no GPS points yet. -/
def freshSession : SessionState := ⟨.idle, 300, 5, [], 0, 0, [], 0, []⟩

/-- A saved run record for store witnesses. -/
def runRecA : SavedRun := ⟨"a1", "2026-01-01", 1500, "5.00", 300, "", 300, 5⟩

/-- A second saved run record for store witnesses. -/
def runRecB : SavedRun := ⟨"b2", "2026-01-02", 1800, "6.00", 300, "", 300, 6⟩

/-! ## Helper lemmas -/

/-- The `distanceKm < 0.01` gate of `getCurrentPace` is the 10 m floor. -/
theorem pace_gate_iff (d : ℚ) : d / 1000 < 1 / 100 ↔ d < 10 := by
  constructor <;> intro h <;> linarith

/-- When the gate of `getCurrentPace` trips, the pace window is untouched. -/
theorem getCurrentPace_none_eq (d e : ℚ) (w : List ℚ)
    (h : (getCurrentPace d e w).1 = none) : getCurrentPace d e w = (none, w) := by
  simp only [getCurrentPace] at h ⊢
  split at h
  · next hc => rw [if_pos hc]
  · simp at h

/-- With no pace reading, `makeVoiceAnnouncement` speaks nothing and leaves
the pace window unchanged. -/
theorem makeVoiceAnnouncement_none (g d e : ℚ) (w : List ℚ) (dm : ℚ)
    (h : (getCurrentPace d e w).1 = none) :
    makeVoiceAnnouncement g d e w dm = (none, w) := by
  have h2 := getCurrentPace_none_eq d e w h
  simp [makeVoiceAnnouncement, h2]

/-- The kilometre/half-km floor of the source equals the metre/500 floor. -/
theorem half_km_floor (n : ℚ) : ⌊n / 1000 / (1 / 2)⌋ = ⌊n / 500⌋ := by
  have h : n / 1000 / (1 / 2) = n / 500 := by ring
  rw [h]

/-- Appending the contents of an optional element grows a list by at most
one. -/
theorem length_append_toList_le (l : List Announcement) (o : Option Announcement) :
    (l ++ o.toList).length ≤ l.length + 1 := by
  cases o <;> simp

/-! ## Claim theorems -/

/-- Claim C1, counterexample.  The claim states that a sub-threshold fix "does
not become the new reference point".  In the code the fix is appended to the
point list on every path through the callback (`return updated`), so it does
become the reference.  Concretely: with accepted reference `fixA` and a new
accurate fix `fixB` at the same coordinates (distance 0 m < 3 m — the model
instantiates the distance function with the constant 0, the value
`haversineDistance` takes on identical coordinates), the point list changes
from `[fixA]` to `[fixA, fixB]`. -/
theorem subthresholdFix_reference_counterexample :
    (processPosition (fun _ _ => 0) sessionWithA fixB).gpsPoints ≠
      sessionWithA.gpsPoints := by
  decide

/-- Claim C1 (amended): a GPS fix that passes the accuracy gate and whose
distance to the previous accepted fix is below
`MIN_DISTANCE_THRESHOLD_METERS` credits no distance to the running total, but
it is NOT discarded as a reference: it is appended to the GPS point list and
becomes the new reference point, so the next fix is compared against it
rather than against the old reference. -/
theorem subthresholdFix_appended_no_credit (dist : GpsFix → GpsFix → ℚ)
    (s : SessionState) (p lp : GpsFix)
    (hacc : p.accuracy ≤ MAX_GPS_ACCURACY_METERS)
    (hlast : s.gpsPoints.getLast? = some lp)
    (hlt : dist lp p < MIN_DISTANCE_THRESHOLD_METERS) :
    (processPosition dist s p).totalDistance = s.totalDistance ∧
      processPosition dist s p = { s with gpsPoints := s.gpsPoints ++ [p] } ∧
      (processPosition dist s p).gpsPoints.getLast? = some p := by
  have h1 : ¬ p.accuracy > MAX_GPS_ACCURACY_METERS := not_lt.mpr hacc
  have h2 : ¬ dist lp p ≥ MIN_DISTANCE_THRESHOLD_METERS := not_le.mpr hlt
  refine ⟨?_, ?_, ?_⟩ <;> simp [processPosition, h1, hlast, h2]

/-- Claim C1 witness: the amended theorem evaluated on the concrete
sub-threshold fix `fixB` arriving after `fixA`. -/
theorem subthresholdFix_appended_no_credit_witness :
    (processPosition (fun _ _ => 0) sessionWithA fixB).totalDistance =
        sessionWithA.totalDistance ∧
      processPosition (fun _ _ => 0) sessionWithA fixB =
        { sessionWithA with gpsPoints := sessionWithA.gpsPoints ++ [fixB] } ∧
      (processPosition (fun _ _ => 0) sessionWithA fixB).gpsPoints.getLast? =
        some fixB :=
  subthresholdFix_appended_no_credit (fun _ _ => 0) sessionWithA fixB fixA
    (by decide) (by decide) (by decide)

/-- Claim C2, counterexample.  The claim states that the first fix delivered
after resuming from pause credits zero distance.  `handleResume` does not
clear the GPS point list, so the first fix after resume is compared against
the last pre-pause point and credits its distance when it reaches the
threshold.  Concretely: pausing `sessionWithA`, resuming, and then receiving
the accurate fix `fixB` at distance 5 m from the retained reference `fixA`
changes `totalDistance` (from 0 to 5). -/
theorem firstFixAfterResume_counterexample :
    (processPosition (fun _ _ => 5) (handleResume (handlePause sessionWithA))
          fixB).totalDistance ≠
      (handlePause sessionWithA).totalDistance := by
  norm_num [processPosition, handleResume, handlePause, sessionWithA, fixA,
    fixB, MAX_GPS_ACCURACY_METERS, MIN_DISTANCE_THRESHOLD_METERS,
    checkMilestone, makeVoiceAnnouncement, getCurrentPace, paceWindowPush]

/-- Claim C2 (amended): the first accuracy-passing fix after session start is
accepted as the new reference with zero distance credited (the point list is
empty, so there is no previous point to compare).  After resuming from pause,
however, the point list is retained: `handleResume` changes no GPS field, and
the first accuracy-passing fix after resume is compared against the last
pre-pause point, crediting its distance whenever it reaches
`MIN_DISTANCE_THRESHOLD_METERS`. -/
theorem firstFix_start_resume_behavior :
    (∀ (dist : GpsFix → GpsFix → ℚ) (s : SessionState) (p : GpsFix),
        p.accuracy ≤ MAX_GPS_ACCURACY_METERS → s.gpsPoints = [] →
        processPosition dist s p = { s with gpsPoints := [p] }) ∧
    (∀ s : SessionState,
        (handleResume s).gpsPoints = s.gpsPoints ∧
          (handleResume s).totalDistance = s.totalDistance) ∧
    (∀ (dist : GpsFix → GpsFix → ℚ) (s : SessionState) (p lp : GpsFix),
        p.accuracy ≤ MAX_GPS_ACCURACY_METERS →
        s.gpsPoints.getLast? = some lp →
        MIN_DISTANCE_THRESHOLD_METERS ≤ dist lp p →
        (processPosition dist (handleResume s) p).totalDistance =
          s.totalDistance + dist lp p) := by
  refine ⟨?_, ?_, ?_⟩
  · intro dist s p hacc hnil
    simp [processPosition, not_lt.mpr hacc, hnil]
  · intro s
    exact ⟨rfl, rfl⟩
  · intro dist s p lp hacc hlast hinc
    have h1 : ¬ p.accuracy > MAX_GPS_ACCURACY_METERS := not_lt.mpr hacc
    cases hm : checkMilestone (s.totalDistance + dist lp p)
        s.lastAnnouncementDistance <;>
      simp [processPosition, handleResume, h1, hlast, hinc, hm]

/-- Claim C2 witness: the amended theorem evaluated on a fresh session
receiving `fixA`, and on the resumed session `sessionWithA` receiving a fix
5 m away from the retained reference. -/
theorem firstFix_start_resume_behavior_witness :
    processPosition (fun _ _ => 5) freshSession fixA =
        { freshSession with gpsPoints := [fixA] } ∧
      (processPosition (fun _ _ => 5) (handleResume sessionWithA)
            fixB).totalDistance =
        sessionWithA.totalDistance + 5 :=
  ⟨firstFix_start_resume_behavior.1 (fun _ _ => 5) freshSession fixA
      (by decide) (by decide),
    firstFix_start_resume_behavior.2.2 (fun _ _ => 5) sessionWithA fixB fixA
      (by decide) (by decide) (by decide)⟩

/-- Claim C3, counterexample.  The claim states that 15 m in 100 s yields an
instantaneous pace of exactly 6667 s/km; the computed value
`100 / (15/1000)` is `20000/3 ≈ 6666.67` s/km (6667 is only its rounding). -/
theorem paceEstimator_6667_counterexample :
    (getCurrentPace 15 100 []).1 = some (20000 / 3) ∧ (20000 / 3 : ℚ) ≠ 6667 := by
  norm_num [getCurrentPace, paceWindowPush, PACE_SMOOTHING_WINDOW]

/-- Claim C3 (amended): `getCurrentPace` returns `none` exactly when
`totalDistanceMeters < 10` or `elapsedSeconds < 1`; otherwise it computes the
instantaneous pace `elapsedSeconds / (totalDistanceMeters/1000)`, appends it
at the tail of the bounded window (evicting the head once the length exceeds
5), and returns the arithmetic mean of the window.  Distance 5 m with
elapsed 100 s yields `none`; distance 15 m with elapsed 100 s yields the
finite value `20000/3 ≈ 6666.67` s/km (not exactly 6667). -/
theorem paceEstimator_characterization :
    (∀ (d e : ℚ) (w : List ℚ), (getCurrentPace d e w).1 = none ↔ d < 10 ∨ e < 1) ∧
    (∀ (d e : ℚ) (w : List ℚ), 10 ≤ d → 1 ≤ e →
        getCurrentPace d e w =
          (some ((paceWindowPush w (e / (d / 1000))).sum /
              ((paceWindowPush w (e / (d / 1000))).length : ℚ)),
            paceWindowPush w (e / (d / 1000)))) ∧
    (∀ (w : List ℚ) (x : ℚ),
        (w.length < PACE_SMOOTHING_WINDOW → paceWindowPush w x = w ++ [x]) ∧
        (w.length = PACE_SMOOTHING_WINDOW → paceWindowPush w x = w.tail ++ [x]) ∧
        (w.length ≤ PACE_SMOOTHING_WINDOW →
          (paceWindowPush w x).length ≤ PACE_SMOOTHING_WINDOW)) ∧
    (getCurrentPace 5 100 []).1 = none ∧
    getCurrentPace 15 100 [] = (some (20000 / 3), [20000 / 3]) := by
  refine ⟨?_, ?_, ?_, ?_, ?_⟩
  · intro d e w
    constructor
    · intro h
      simp only [getCurrentPace] at h
      split at h
      · next hc =>
        rcases hc with hc | hc
        · exact Or.inl (by linarith)
        · exact Or.inr hc
      · simp at h
    · intro h
      have hc : d / 1000 < 1 / 100 ∨ e < 1 := by
        rcases h with h | h
        · exact Or.inl (by linarith)
        · exact Or.inr h
      simp only [getCurrentPace]
      rw [if_pos hc]
  · intro d e w hd he
    have hc : ¬ (d / 1000 < 1 / 100 ∨ e < 1) := by
      push_neg
      exact ⟨by linarith, by linarith⟩
    simp only [getCurrentPace]
    rw [if_neg hc]
  · intro w x
    refine ⟨?_, ?_, ?_⟩
    · intro h
      simp only [paceWindowPush]
      rw [if_neg (by simp only [List.length_append, List.length_cons,
        List.length_nil, PACE_SMOOTHING_WINDOW] at h ⊢; omega)]
    · intro h
      have hw : w ≠ [] := by
        intro hnil
        rw [hnil] at h
        simp [PACE_SMOOTHING_WINDOW] at h
      simp only [paceWindowPush]
      rw [if_pos (by simp only [List.length_append, List.length_cons,
        List.length_nil, PACE_SMOOTHING_WINDOW] at h ⊢; omega)]
      cases w with
      | nil => exact absurd rfl hw
      | cons a t => simp
    · intro h
      simp only [paceWindowPush]
      split
      · simp only [List.length_tail, List.length_append, List.length_cons,
          List.length_nil, PACE_SMOOTHING_WINDOW] at h ⊢
        omega
      · next h2 =>
        simp only [List.length_append, List.length_cons, List.length_nil,
          PACE_SMOOTHING_WINDOW, not_lt] at h2 ⊢
        omega
  · norm_num [getCurrentPace]
  · norm_num [getCurrentPace, paceWindowPush, PACE_SMOOTHING_WINDOW]

/-- Claim C3 witness: the amended theorem evaluated at 1000 m in 300 s with
an empty window, and the push-append case at a window of one element. -/
theorem paceEstimator_characterization_witness :
    getCurrentPace 1000 300 [] =
      (some ((paceWindowPush [] (300 / (1000 / 1000))).sum /
          ((paceWindowPush [] (300 / (1000 / 1000))).length : ℚ)),
        paceWindowPush [] (300 / (1000 / 1000))) ∧
      paceWindowPush [7] 8 = [7] ++ [8] :=
  ⟨paceEstimator_characterization.2.1 1000 300 [] (by norm_num) (by norm_num),
    (paceEstimator_characterization.2.2.1 [7] 8).1
      (by norm_num [PACE_SMOOTHING_WINDOW])⟩

/-- Claim C4: running 30 s, pausing for an arbitrary wall-clock duration,
resuming, and running 20 s more yields elapsed 50 s, independent of the
pause length: `pauseTimer` freezes the elapsed value and `startTimer`
recomputes the wall-clock reference as `now - elapsedAtPause*1000`. -/
theorem pause_resume_roundtrip_elapsed (t0 pauseLen : ℤ) :
    timerTickElapsed (t0 + 30000 + pauseLen + 20000)
        (startTimer (t0 + 30000 + pauseLen)
          (timerTickElapsed (t0 + 30000) (startTimer t0 0))) = 50 := by
  have h30 : timerTickElapsed (t0 + 30000) (startTimer t0 0) = 30 := by
    have h : t0 + 30000 - (t0 - 0 * 1000) = 30000 := by ring
    simp only [timerTickElapsed, startTimer, h]
    decide
  rw [h30]
  have h : t0 + 30000 + pauseLen + 20000 - (t0 + 30000 + pauseLen - 30 * 1000) =
      50000 := by ring
  simp only [timerTickElapsed, startTimer, h]
  decide

/-- Claim C4 witness: the round-trip evaluated at start instant 0 with a
7777 ms pause. -/
theorem pause_resume_roundtrip_elapsed_witness :
    timerTickElapsed (0 + 30000 + 7777 + 20000)
        (startTimer (0 + 30000 + 7777)
          (timerTickElapsed (0 + 30000) (startTimer 0 0))) = 50 :=
  pause_resume_roundtrip_elapsed 0 7777

/-- Claim C5: the milestone trigger fires exactly when
`⌊newTotal/500⌋ > ⌊lastAnnounced/500⌋` (the source's km/half-km floors agree
with metre/500 floors); each GPS tick appends at most one announcement, even
when a single large increment skips several boundaries (the concrete tick
from 490 m to 1200 m crosses two boundaries and speaks exactly once); the
trigger fires crossing 480 m → 520 m and does not re-fire at 520 m with the
marker at 520 m. -/
theorem milestone_trigger_characterization :
    (∀ n l : ℚ, checkMilestone n l = true ↔ ⌊n / 500⌋ > ⌊l / 500⌋) ∧
    (∀ (dist : GpsFix → GpsFix → ℚ) (s : SessionState) (p : GpsFix),
        (processPosition dist s p).spoken.length ≤ s.spoken.length + 1) ∧
    (checkMilestone 520 480 = true ∧ checkMilestone 520 520 = false) ∧
    (processPosition (fun _ _ => 710) session490e100 fixB).spoken.length =
      session490e100.spoken.length + 1 := by
  refine ⟨?_, ?_, ⟨?_, ?_⟩, ?_⟩
  · intro n l
    simp only [checkMilestone, half_km_floor, decide_eq_true_eq, gt_iff_lt]
  · intro dist s p
    simp only [processPosition]
    split
    · omega
    · split
      · exact Nat.le_succ _
      · split
        · split
          · exact length_append_toList_le _ _
          · exact Nat.le_succ _
        · exact Nat.le_succ _
  · simp only [checkMilestone, decide_eq_true_eq]
    norm_num
  · simp only [checkMilestone, decide_eq_false_iff_not]
    norm_num
  · norm_num [processPosition, session490e100, fixA, fixB,
      MAX_GPS_ACCURACY_METERS, MIN_DISTANCE_THRESHOLD_METERS, checkMilestone,
      makeVoiceAnnouncement, getCurrentPace, paceWindowPush,
      PACE_SMOOTHING_WINDOW]

/-- Claim C5 witness: the trigger characterization evaluated at a crossing
from marker 0 to total 1200 m, and the once-per-tick bound at the concrete
double-boundary tick. -/
theorem milestone_trigger_characterization_witness :
    checkMilestone 1200 0 = true ∧
      (processPosition (fun _ _ => 710) session490e100 fixB).spoken.length ≤
        session490e100.spoken.length + 1 :=
  ⟨(milestone_trigger_characterization.1 1200 0).mpr (by norm_num),
    milestone_trigger_characterization.2.1 (fun _ _ => 710) session490e100 fixB⟩

/-- Claim C6: a fix whose reported accuracy exceeds
`MAX_GPS_ACCURACY_METERS` is rejected outright: it changes neither the GPS
point list (the reference) nor the accumulated distance. -/
theorem accuracy_gate_frame (dist : GpsFix → GpsFix → ℚ) (s : SessionState)
    (p : GpsFix) (hacc : p.accuracy > MAX_GPS_ACCURACY_METERS) :
    (processPosition dist s p).gpsPoints = s.gpsPoints ∧
      (processPosition dist s p).totalDistance = s.totalDistance := by
  simp [processPosition, hacc]

/-- Claim C6 witness: the gate theorem evaluated on `badFix` (accuracy 31 m)
arriving at `sessionWithA`, with a distance function that would otherwise
credit 100 m. -/
theorem accuracy_gate_frame_witness :
    (processPosition (fun _ _ => 100) sessionWithA badFix).gpsPoints =
        sessionWithA.gpsPoints ∧
      (processPosition (fun _ _ => 100) sessionWithA badFix).totalDistance =
        sessionWithA.totalDistance :=
  accuracy_gate_frame (fun _ _ => 100) sessionWithA badFix (by decide)

/-- Claim C7: `saveRun` prepends, so the saved run is the head of the stored
sequence afterwards; `deleteRun id` leaves no entry with that id; and
deleting an id not present leaves the stored sequence unchanged. -/
theorem history_store_save_delete :
    (∀ (history : List SavedRun) (runData : SavedRun),
        (saveRun history runData).head? = some runData) ∧
    (∀ (history : List SavedRun) (runId : String),
        ∀ r ∈ deleteRun history runId, r.id ≠ runId) ∧
    (∀ (history : List SavedRun) (runId : String),
        (∀ r ∈ history, r.id ≠ runId) → deleteRun history runId = history) := by
  refine ⟨fun _ _ => rfl, ?_, ?_⟩
  · intro history runId r hr
    have h := List.of_mem_filter hr
    simpa using h
  · intro history runId h
    apply List.filter_eq_self.mpr
    intro a ha
    simpa using h a ha

/-- Claim C7 witness: the store theorem evaluated on a concrete two-run
history, deleting an id that is not present. -/
theorem history_store_save_delete_witness :
    (saveRun [runRecB] runRecA).head? = some runRecA ∧
      deleteRun [runRecA, runRecB] "zz" = [runRecA, runRecB] :=
  ⟨history_store_save_delete.1 [runRecB] runRecA,
    history_store_save_delete.2.2 [runRecA, runRecB] "zz" (by decide)⟩

/-- Claim C8, counterexample.  The claim states the captured config always
satisfies `goalPaceSecondsPerKm > 0`.  Both pace fields clamp to a minimum
of 0, so entering 0 minutes and 0 seconds captures a goal pace of 0. -/
theorem goalPace_positive_counterexample :
    ¬ 0 < handleStartGoalPace (setGoalMinutes (some 0)) (setGoalSeconds (some 0)) := by
  decide

/-- Claim C8 (amended): for every possible form input (including non-numeric
entries, modelled as `none`), the captured configuration satisfies
`goalPaceSecondsPerKm ≥ 0` and `targetDistanceKm ≥ 0.1 > 0`; the entries are
clamped at entry, never propagated as exceptions.  The goal pace is NOT
always strictly positive: it is 0 exactly when both pace fields clamp to 0. -/
theorem setup_clamping_bounds (vm vs : Option ℤ) (vd : Option ℚ) :
    0 ≤ handleStartGoalPace (setGoalMinutes vm) (setGoalSeconds vs) ∧
      1 / 10 ≤ setTargetDistance vd ∧ 0 < setTargetDistance vd := by
  refine ⟨?_, le_max_left _ _, lt_of_lt_of_le (by norm_num) (le_max_left _ _)⟩
  have h1 : (0 : ℤ) ≤ setGoalMinutes vm := le_max_left _ _
  have h2 : (0 : ℤ) ≤ setGoalSeconds vs := le_max_left _ _
  simp only [handleStartGoalPace]
  omega

/-- Claim C8 witness: the clamping bounds evaluated on non-numeric pace
fields and a negative distance entry. -/
theorem setup_clamping_bounds_witness :
    0 ≤ handleStartGoalPace (setGoalMinutes none) (setGoalSeconds none) ∧
      1 / 10 ≤ setTargetDistance (some (-3)) ∧
        0 < setTargetDistance (some (-3)) :=
  setup_clamping_bounds none none (some (-3))

/-- Claim C9: the haversine distance from a coordinate pair to itself is 0,
and the function is symmetric in its two coordinate pairs. -/
theorem haversine_self_symm (lat1 lon1 lat2 lon2 : ℝ) :
    haversineDistance lat1 lon1 lat1 lon1 = 0 ∧
      haversineDistance lat1 lon1 lat2 lon2 =
        haversineDistance lat2 lon2 lat1 lon1 := by
  constructor
  · simp [haversineDistance, toRad]
  · simp only [haversineDistance, toRad]
    have h1 : (lat1 - lat2) * Real.pi / 180 = -((lat2 - lat1) * Real.pi / 180) := by
      ring
    have h2 : (lon1 - lon2) * Real.pi / 180 = -((lon2 - lon1) * Real.pi / 180) := by
      ring
    rw [h1, h2]
    simp only [neg_div, Real.sin_neg, neg_mul_neg]
    ring_nf

/-- Claim C9 witness: self-distance and symmetry at the concrete coordinate
pairs (0,0) and (1,1). -/
theorem haversine_self_symm_witness :
    haversineDistance 0 0 0 0 = 0 ∧
      haversineDistance 0 0 1 1 = haversineDistance 1 1 0 0 :=
  haversine_self_symm 0 0 1 1

/-- Claim C10: on a credited tick that crosses a 500 m boundary while the
pace estimator reads `none`, nothing is spoken, yet the announcement marker
still advances to the new total distance; consequently no later tick can
announce the already-crossed boundary retroactively (any later total in the
same or an earlier 500 m bucket fails the trigger against the new marker). -/
theorem milestone_paceNone_advances (dist : GpsFix → GpsFix → ℚ)
    (s : SessionState) (p lp : GpsFix)
    (hacc : p.accuracy ≤ MAX_GPS_ACCURACY_METERS)
    (hlast : s.gpsPoints.getLast? = some lp)
    (hinc : MIN_DISTANCE_THRESHOLD_METERS ≤ dist lp p)
    (hcross : checkMilestone (s.totalDistance + dist lp p)
        s.lastAnnouncementDistance = true)
    (hpace : (getCurrentPace s.totalDistance (s.elapsedTime : ℚ)
        s.paceWindow).1 = none) :
    (processPosition dist s p).spoken = s.spoken ∧
      (processPosition dist s p).lastAnnouncementDistance =
        s.totalDistance + dist lp p ∧
      ∀ d' : ℚ, ⌊d' / 500⌋ ≤ ⌊(s.totalDistance + dist lp p) / 500⌋ →
        checkMilestone d' (processPosition dist s p).lastAnnouncementDistance =
          false := by
  have h1 : ¬ p.accuracy > MAX_GPS_ACCURACY_METERS := not_lt.mpr hacc
  have hma := makeVoiceAnnouncement_none s.goalPaceSeconds s.totalDistance
    (s.elapsedTime : ℚ) s.paceWindow (s.totalDistance + dist lp p) hpace
  have hl : (processPosition dist s p).lastAnnouncementDistance =
      s.totalDistance + dist lp p := by
    simp [processPosition, h1, hlast, hinc, hcross]
  refine ⟨?_, hl, ?_⟩
  · simp [processPosition, h1, hlast, hinc, hcross, hma]
  · intro d' hd
    rw [hl]
    have hfloor : ¬ (⌊d' / 1000 / (1 / 2)⌋ >
        ⌊(s.totalDistance + dist lp p) / 1000 / (1 / 2)⌋) := by
      rw [half_km_floor, half_km_floor]
      exact not_lt.mpr hd
    simp only [checkMilestone]
    exact decide_eq_false hfloor

/-- Claim C10 witness: the theorem evaluated on the session at 490 m with
zero elapsed seconds (so the pace estimator reads `none`) receiving a fix
30 m away, crossing the 500 m boundary to a 520 m total. -/
theorem milestone_paceNone_advances_witness :
    (processPosition (fun _ _ => 30) session490 fixB).spoken = [] ∧
      (processPosition (fun _ _ => 30) session490 fixB).lastAnnouncementDistance =
        520 ∧
      checkMilestone 500
          (processPosition (fun _ _ => 30) session490 fixB).lastAnnouncementDistance =
        false := by
  have h := milestone_paceNone_advances (fun _ _ => 30) session490 fixB fixA
    (by decide) (by decide) (by decide)
    (by simp only [checkMilestone, decide_eq_true_eq, session490]; norm_num)
    (by norm_num [getCurrentPace, session490])
  refine ⟨h.1, ?_, h.2.2 500 (by norm_num [session490])⟩
  rw [h.2.1]
  norm_num [session490]
